import Mathlib

/-!
Verification of the task-progress synchronization client of
rag-story-writer-front.

The embedding follows the source:
- `src/hooks/useTaskWebSocket.ts` (the WebSocket hook): snapshot state,
  message handling, reconnect accounting;
- `src/api/api.ts` (`generateBook`, `fetchTaskStatus`, URL resolution);
- `src/types/index.ts` (`WebSocketMessage`, `TaskStatus`, `BookRequest`);
- `src/components/TaskStatus.tsx` (`handleManualCheck`);
- `src/config/env.ts` (configuration record).

JavaScript truthiness of optional strings (empty string is falsy) is
modelled with `truthy`; an unparseable frame is modelled as `none` at the
`Option WebSocketMessage` layer, matching the try/catch around
`JSON.parse` and the switch body.
-/

/-- Canonical task status, from `TaskStatus.status` in `src/types/index.ts`. -/
inductive Status where
  | pending
  | processing
  | completed
  | failed
deriving DecidableEq, Repr

/-- The nested `info` object of a backend WebSocket message
(`WebSocketMessage.info` in `src/types/index.ts`). -/
structure WSInfo where
  progress : Option Int := none
  chapter : Option Int := none
  pdf_url : Option String := none
  errmsg : Option String := none
deriving DecidableEq, Repr

/-- A parsed backend WebSocket message (`WebSocketMessage` in
`src/types/index.ts`): a `state` discriminator string, an optional `info`
object and an optional top-level alternative error field. -/
structure WebSocketMessage where
  state : String
  info : Option WSInfo := none
  errmsg : Option String := none
deriving DecidableEq, Repr

/-- Configuration record, from `src/config/env.ts` (`config`). Only the
fields the hook reads are carried. -/
structure Config where
  API_BASE_URL : String
  WS_RECONNECT_ATTEMPTS : Nat
  WS_RECONNECT_DELAY : Nat
deriving Repr

/-- The state held by `useTaskWebSocket` via `useState`: status, progress,
pdfUrl, error, isConnected, connectionAttempts. -/
structure HookState where
  status : Status
  progress : Int
  pdfUrl : Option String
  errmsg : Option String
  isConnected : Bool
  connectionAttempts : Nat
deriving DecidableEq, Repr

/-- The initial hook state: `useState('pending')`, `useState(0)`, and the
remaining fields start unset/false/0. -/
def initState : HookState :=
  { status := Status.pending
    progress := 0
    pdfUrl := none
    errmsg := none
    isConnected := false
    connectionAttempts := 0 }

/-- JavaScript truthiness of an optional string: `undefined` and the empty
string are falsy. -/
def truthy : Option String → Option String
  | some s => if s = "" then none else some s
  | none => none

/-- `message.info?.progress` (an `undefined`-propagating optional chain). -/
def infoProgress (m : WebSocketMessage) : Option Int :=
  m.info.bind WSInfo.progress

/-- `message.info?.pdf_url`. -/
def infoPdfUrl (m : WebSocketMessage) : Option String :=
  m.info.bind WSInfo.pdf_url

/-- `message.info?.error`. -/
def infoError (m : WebSocketMessage) : Option String :=
  m.info.bind WSInfo.errmsg

/-- `config.API_BASE_URL.replace(/\/$/, '')`: the regex removes a single
trailing slash when present. Stated on the character data so that it is
kernel-computable. -/
def stripTrailingSlash (s : String) : String :=
  if s.data.getLast? = some '/' then String.mk s.data.dropLast else s

/-- `url.startsWith('/')`: the first character is a slash. -/
def startsWithSlash (s : String) : Bool :=
  match s.data with
  | [] => false
  | c :: _ => c = '/'

/-- The pdf_url resolution in the SUCCESS/COMPLETED branch of
`ws.onmessage`: a reference starting with a slash is prefixed with the base
URL (one trailing slash removed); anything else passes through unchanged. -/
def resolvePdfUrl (base url : String) : String :=
  if startsWithSlash url then stripTrailingSlash base ++ url else url

/-- `message.info?.error || message.error || 'Task failed'` — the
JavaScript or-chain skips falsy (absent or empty) strings. -/
def failedErrorMsg (m : WebSocketMessage) : String :=
  match truthy (infoError m) with
  | some e => e
  | none =>
    match truthy m.errmsg with
    | some e => e
    | none => "Task failed"

/-- The switch body of `ws.onmessage` in `useTaskWebSocket`, applied to a
successfully parsed message. Each branch performs exactly the `set*` calls
of the source; the default branch only logs. -/
def handleParsed (cfg : Config) (s : HookState) (m : WebSocketMessage) :
    HookState :=
  if m.state = "PENDING" then
    let s1 := { s with status := Status.pending }
    match infoProgress m with
    | some p => { s1 with progress := p }
    | none => s1
  else if m.state = "PROCESSING" ∨ m.state = "IN_PROGRESS" ∨
      m.state = "PROGRESS" then
    let s1 := { s with status := Status.processing }
    match infoProgress m with
    | some p => { s1 with progress := p }
    | none => s1
  else if m.state = "SUCCESS" ∨ m.state = "COMPLETED" then
    let s1 := { s with progress := 100, status := Status.completed }
    match truthy (infoPdfUrl m) with
    | some u => { s1 with pdfUrl := some (resolvePdfUrl cfg.API_BASE_URL u) }
    | none => s1
  else if m.state = "FAILED" ∨ m.state = "ERROR" then
    { s with status := Status.failed, errmsg := some (failedErrorMsg m) }
  else
    s

/-- `ws.onmessage` on one inbound frame: `none` models a frame on which
`JSON.parse` throws; the surrounding try/catch swallows the failure, so the
state is unchanged and no exception escapes (the function is total). -/
def handleMessage (cfg : Config) (s : HookState)
    (raw : Option WebSocketMessage) : HookState :=
  match raw with
  | none => s
  | some m => handleParsed cfg s m

/-- Folding `ws.onmessage` over a sequence of inbound frames. -/
def runMessages (cfg : Config) (s : HookState)
    (msgs : List (Option WebSocketMessage)) : HookState :=
  msgs.foldl (handleMessage cfg) s

/-- A concrete configuration for witnesses: the defaults of
`src/config/env.ts` (`http://localhost:8001`, 5 attempts, 3000 ms). -/
def cfg0 : Config :=
  { API_BASE_URL := "http://localhost:8001"
    WS_RECONNECT_ATTEMPTS := 5
    WS_RECONNECT_DELAY := 3000 }

/-- Lifecycle events of the hook's WebSocket handling: a `connect()` call,
`ws.onopen`, `ws.onmessage` (with the parse outcome of the frame),
`ws.onclose` (with close code and `wasClean`), and `ws.onerror`. -/
inductive WSEvent where
  | connectAttempt
  | opened
  | message (raw : Option WebSocketMessage)
  | closed (code : Nat) (wasClean : Bool)
  | errored
deriving DecidableEq, Repr

/-- The diagnostic message `connect()` sets once reconnect attempts are
exhausted. -/
def exhaustedMsg : String :=
  "Unable to establish WebSocket connection. Using manual status checks instead."

/-- The `connect()` callback: when `connectionAttempts >= WS_RECONNECT_ATTEMPTS`
it sets the diagnostic error and returns without creating a socket; otherwise
it creates a new WebSocket. The boolean reports whether a socket was opened. -/
def connectStep (cfg : Config) (s : HookState) : HookState × Bool :=
  if cfg.WS_RECONNECT_ATTEMPTS ≤ s.connectionAttempts then
    ({ s with errmsg := some exhaustedMsg }, false)
  else
    (s, true)

/-- `ws.onopen`: sets `isConnected`, clears the error and resets
`connectionAttempts` to 0. -/
def openStep (s : HookState) : HookState :=
  { s with isConnected := true, errmsg := none, connectionAttempts := 0 }

/-- `ws.onclose`: clears `isConnected`; then, only when
`connectionAttempts < WS_RECONNECT_ATTEMPTS`, the close code is not 1000 and
the closure was not clean, increments `connectionAttempts` (and schedules a
reconnect, not part of the state). -/
def closeStep (cfg : Config) (s : HookState) (code : Nat) (wasClean : Bool) :
    HookState :=
  let s1 := { s with isConnected := false }
  if s1.connectionAttempts < cfg.WS_RECONNECT_ATTEMPTS ∧ code ≠ 1000 ∧
      wasClean = false then
    { s1 with connectionAttempts := s1.connectionAttempts + 1 }
  else
    s1

/-- `ws.onerror`: only clears `isConnected`. -/
def errorStep (s : HookState) : HookState :=
  { s with isConnected := false }

/-- One hook state transition per lifecycle event. -/
def step (cfg : Config) (s : HookState) : WSEvent → HookState
  | WSEvent.connectAttempt => (connectStep cfg s).1
  | WSEvent.opened => openStep s
  | WSEvent.message raw => handleMessage cfg s raw
  | WSEvent.closed code wasClean => closeStep cfg s code wasClean
  | WSEvent.errored => errorStep s

/-- Folding the hook over a sequence of lifecycle events. -/
def runEvents (cfg : Config) (s : HookState) (evs : List WSEvent) : HookState :=
  evs.foldl (step cfg) s

/-- The `result` object of a status-fetch response
(`TaskStatus.result` in `src/types/index.ts`). -/
structure TaskResult where
  pdf_url : String
deriving DecidableEq, Repr

/-- The status-fetch response shape (`TaskStatus` in `src/types/index.ts`). -/
structure TaskStatusResp where
  status : Status
  progress : Int
  result : Option TaskResult := none
  errmsg : Option String := none
deriving DecidableEq, Repr

/-- `handleManualCheck` in `src/components/TaskStatus.tsx`: after fetching,
`onComplete` is invoked with the pdf_url exactly when the response status is
`completed` and `result?.pdf_url` is truthy. Returns the argument passed to
`onComplete`, or `none` when it is not called. -/
def handleManualCheck (r : TaskStatusResp) : Option String :=
  match r.result with
  | some res =>
    if r.status = Status.completed ∧ res.pdf_url ≠ "" then some res.pdf_url
    else none
  | none => none

/-- The job-submission request (`BookRequest` in `src/types/index.ts`); the
TypeScript `language` union `'BG' | 'EN'` is carried as a string. -/
structure BookRequest where
  title : String
  language : String
  style : String
  num_chapters : Nat
  include_images : Bool
  hero_name : String
deriving DecidableEq, Repr

/-- The backend payload built by `generateBook` in `src/api/api.ts`. -/
structure BackendPayload where
  title : String
  language : String
  style : String
  chapters : Nat
  include_images : Bool
  characters : List String
deriving DecidableEq, Repr

/-- ASCII lowering of one character, as `String.prototype.toLowerCase`
acts on the code points the app uses ("EN"/"BG"). -/
def charToLower (c : Char) : Char :=
  if 65 ≤ c.toNat ∧ c.toNat ≤ 90 then Char.ofNat (c.toNat + 32) else c

/-- `payload.language.toLowerCase()`: lowercase every character. -/
def toLowerAscii (s : String) : String :=
  String.mk (s.data.map charToLower)

/-- The field transformation at the top of `generateBook` in
`src/api/api.ts`: lowercase the language, rename `num_chapters` to
`chapters`, wrap `hero_name` into the `characters` array, pass the rest
through. -/
def backendPayload (p : BookRequest) : BackendPayload :=
  { title := p.title
    language := toLowerAscii p.language
    style := p.style
    chapters := p.num_chapters
    include_images := p.include_images
    characters := [p.hero_name] }

/-- The eight discriminator strings the switch in `ws.onmessage` matches. -/
def recognizedStates : List String :=
  ["PENDING", "PROCESSING", "IN_PROGRESS", "PROGRESS",
   "SUCCESS", "COMPLETED", "FAILED", "ERROR"]

section Helpers

theorem handleParsed_unknown (cfg : Config) (s : HookState)
    (m : WebSocketMessage) (h : m.state ∉ recognizedStates) :
    handleParsed cfg s m = s := by
  simp only [recognizedStates, List.mem_cons, List.not_mem_nil, or_false,
    not_or] at h
  obtain ⟨h1, h2, h3, h4, h5, h6, h7, h8⟩ := h
  simp [handleParsed, h1, h2, h3, h4, h5, h6, h7, h8]

theorem handleParsed_connectionAttempts (cfg : Config) (s : HookState)
    (m : WebSocketMessage) :
    (handleParsed cfg s m).connectionAttempts = s.connectionAttempts := by
  unfold handleParsed
  repeat' split
  all_goals rfl

theorem handleMessage_connectionAttempts (cfg : Config) (s : HookState)
    (raw : Option WebSocketMessage) :
    (handleMessage cfg s raw).connectionAttempts = s.connectionAttempts := by
  cases raw with
  | none => rfl
  | some m => exact handleParsed_connectionAttempts cfg s m

theorem step_attempts_le (cfg : Config) (s : HookState) (e : WSEvent)
    (h : s.connectionAttempts ≤ cfg.WS_RECONNECT_ATTEMPTS) :
    (step cfg s e).connectionAttempts ≤ cfg.WS_RECONNECT_ATTEMPTS := by
  cases e with
  | connectAttempt =>
    simp only [step, connectStep]
    split <;> simp [h]
  | opened => simp [step, openStep]
  | message raw => simp [step, handleMessage_connectionAttempts, h]
  | closed code wasClean =>
    simp only [step, closeStep]
    split <;> simp_all
    omega
  | errored => simpa [step, errorStep]

theorem runEvents_attempts_le (cfg : Config) (evs : List WSEvent) :
    ∀ s : HookState, s.connectionAttempts ≤ cfg.WS_RECONNECT_ATTEMPTS →
      (runEvents cfg s evs).connectionAttempts ≤ cfg.WS_RECONNECT_ATTEMPTS := by
  induction evs with
  | nil => intro s h; exact h
  | cons e rest ih =>
    intro s h
    exact ih (step cfg s e) (step_attempts_le cfg s e h)

theorem append_ne_empty_right (a b : String) (h : b ≠ "") : a ++ b ≠ "" := by
  intro hab
  apply h
  have hd : (a ++ b).data = [] := by rw [hab]
  rw [String.data_append] at hd
  have hb : b.data = [] := (List.append_eq_nil.mp hd).2
  cases b
  simp only at hb
  subst hb
  rfl

theorem resolvePdfUrl_ne_empty (base u : String) (h : u ≠ "") :
    resolvePdfUrl base u ≠ "" := by
  unfold resolvePdfUrl
  split
  · exact append_ne_empty_right (stripTrailingSlash base) u h
  · exact h

theorem handleParsed_progress_char (cfg : Config) (s : HookState)
    (m : WebSocketMessage) :
    (handleParsed cfg s m).progress = s.progress ∨
    infoProgress m = some (handleParsed cfg s m).progress ∨
    (handleParsed cfg s m).progress = 100 := by
  unfold handleParsed
  repeat' split
  all_goals simp_all

theorem handleMessage_progress_bound (cfg : Config) (s : HookState)
    (raw : Option WebSocketMessage)
    (hs : 0 ≤ s.progress ∧ s.progress ≤ 100)
    (h : ∀ mm : WebSocketMessage, raw = some mm →
      ∀ p : Int, infoProgress mm = some p → 0 ≤ p ∧ p ≤ 100) :
    0 ≤ (handleMessage cfg s raw).progress ∧
    (handleMessage cfg s raw).progress ≤ 100 := by
  cases raw with
  | none => exact hs
  | some m =>
    show 0 ≤ (handleParsed cfg s m).progress ∧
      (handleParsed cfg s m).progress ≤ 100
    rcases handleParsed_progress_char cfg s m with hc | hc | hc
    · rw [hc]; exact hs
    · exact h m rfl _ hc
    · rw [hc]; exact ⟨by norm_num, le_refl _⟩

theorem runMessages_progress_bound (cfg : Config)
    (msgs : List (Option WebSocketMessage)) :
    ∀ s : HookState, 0 ≤ s.progress ∧ s.progress ≤ 100 →
      (∀ mm : WebSocketMessage, some mm ∈ msgs →
        ∀ p : Int, infoProgress mm = some p → 0 ≤ p ∧ p ≤ 100) →
      0 ≤ (runMessages cfg s msgs).progress ∧
      (runMessages cfg s msgs).progress ≤ 100 := by
  induction msgs with
  | nil => intro s hs _; exact hs
  | cons raw rest ih =>
    intro s hs h
    show 0 ≤ (runMessages cfg (handleMessage cfg s raw) rest).progress ∧ _
    apply ih
    · refine handleMessage_progress_bound cfg s raw hs ?_
      intro mm hmm p hp
      refine h mm ?_ p hp
      rw [← hmm]
      exact List.mem_cons_self raw rest
    · intro mm hmm p hp
      exact h mm (List.mem_cons_of_mem raw hmm) p hp

end Helpers

/-- C1 as stated fails on the code: a snapshot already in the terminal
status `completed` is mutated by a subsequently received `PROCESSING`
message, because `ws.onmessage` performs no terminal-status guard. -/
theorem C1_counterexample :
    ({ status := Status.completed, progress := 100, pdfUrl := some "u",
       errmsg := none, isConnected := true, connectionAttempts := 0 } :
       HookState).status = Status.completed ∧
    handleMessage cfg0
      { status := Status.completed, progress := 100, pdfUrl := some "u",
        errmsg := none, isConnected := true, connectionAttempts := 0 }
      (some { state := "PROCESSING", info := some { progress := some 50 } })
      ≠ { status := Status.completed, progress := 100, pdfUrl := some "u",
          errmsg := none, isConnected := true, connectionAttempts := 0 } := by
  decide

/-- C1 amended: the message handler has no terminal-status guard — after a
terminal status, a received `PROCESSING` message still sets the status to
`processing`; only unparseable frames and frames with an unrecognized
discriminator are guaranteed to leave a terminal snapshot unchanged.
Terminal immutability relies on the socket being closed, not on the
handler. -/
theorem C1_no_terminal_guard (cfg : Config) (s : HookState)
    (_hterm : s.status = Status.completed ∨ s.status = Status.failed)
    (m : WebSocketMessage) (hm : m.state = "PROCESSING") :
    (handleMessage cfg s (some m)).status = Status.processing ∧
    handleMessage cfg s none = s ∧
    (∀ m2 : WebSocketMessage, m2.state ∉ recognizedStates →
      handleMessage cfg s (some m2) = s) := by
  refine ⟨?_, rfl, fun m2 h2 => handleParsed_unknown cfg s m2 h2⟩
  show (handleParsed cfg s m).status = Status.processing
  cases hip : infoProgress m <;> simp [handleParsed, hm, hip]

/-- C1 witness: a completed snapshot, hit by a `PROCESSING` frame, an
unparseable frame and a `"WEIRD_STATE"` frame. -/
theorem C1_witness :
    (handleMessage cfg0
      { status := Status.completed, progress := 100, pdfUrl := some "u",
        errmsg := none, isConnected := true, connectionAttempts := 0 }
      (some { state := "PROCESSING", info := some { progress := some 50 } })).status
      = Status.processing := by
  have h := C1_no_terminal_guard cfg0
    { status := Status.completed, progress := 100, pdfUrl := some "u",
      errmsg := none, isConnected := true, connectionAttempts := 0 }
    (Or.inl rfl)
    { state := "PROCESSING", info := some { progress := some 50 } } rfl
  exact h.1

/-- C2 as stated fails on the code: a message sequence ending in a
`SUCCESS` frame that carries no `info.pdf_url` leaves `pdfUrl` unset, even
though the final status is `completed`. -/
theorem C2_counterexample :
    (runMessages cfg0 initState [some { state := "SUCCESS" }]).status
      = Status.completed ∧
    (runMessages cfg0 initState [some { state := "SUCCESS" }]).progress = 100 ∧
    (runMessages cfg0 initState [some { state := "SUCCESS" }]).pdfUrl
      = none := by
  decide

/-- C2 amended: for every sequence of received messages ending in one whose
discriminator maps to `completed` (`SUCCESS` or `COMPLETED`), the final
snapshot has `progress = 100` and `status = completed`; `pdfUrl` is set to
a non-empty value provided the final message carries a non-empty
`info.pdf_url`. -/
theorem C2_completed_final (cfg : Config)
    (msgs : List (Option WebSocketMessage)) (m : WebSocketMessage)
    (h : m.state = "SUCCESS" ∨ m.state = "COMPLETED") :
    (runMessages cfg initState (msgs ++ [some m])).progress = 100 ∧
    (runMessages cfg initState (msgs ++ [some m])).status = Status.completed ∧
    (∀ u, infoPdfUrl m = some u → u ≠ "" →
      ∃ v, (runMessages cfg initState (msgs ++ [some m])).pdfUrl = some v ∧
        v ≠ "") := by
  have hrun : runMessages cfg initState (msgs ++ [some m]) =
      handleParsed cfg (runMessages cfg initState msgs) m := by
    simp [runMessages, List.foldl_append, handleMessage]
  rw [hrun]
  have hprog : ∀ s : HookState, (handleParsed cfg s m).progress = 100 := by
    intro s
    rcases h with h | h <;> cases htr : truthy (infoPdfUrl m) <;>
      simp [handleParsed, h, htr]
  have hstat : ∀ s : HookState,
      (handleParsed cfg s m).status = Status.completed := by
    intro s
    rcases h with h | h <;> cases htr : truthy (infoPdfUrl m) <;>
      simp [handleParsed, h, htr]
  refine ⟨hprog _, hstat _, ?_⟩
  intro u hu hne
  have htr : truthy (infoPdfUrl m) = some u := by
    rw [hu]; simp [truthy, hne]
  refine ⟨resolvePdfUrl cfg.API_BASE_URL u, ?_,
    resolvePdfUrl_ne_empty cfg.API_BASE_URL u hne⟩
  rcases h with h | h <;> simp [handleParsed, h, htr]

/-- C2 witness: the single-message sequence `SUCCESS` with
`info.pdf_url = "/files/a.pdf"`. -/
theorem C2_witness :
    (runMessages cfg0 initState
      [some { state := "SUCCESS",
              info := some { pdf_url := some "/files/a.pdf" } }]).progress
      = 100 ∧
    (runMessages cfg0 initState
      [some { state := "SUCCESS",
              info := some { pdf_url := some "/files/a.pdf" } }]).status
      = Status.completed ∧
    ∃ v, (runMessages cfg0 initState
      [some { state := "SUCCESS",
              info := some { pdf_url := some "/files/a.pdf" } }]).pdfUrl
      = some v ∧ v ≠ "" := by
  have h := C2_completed_final cfg0 []
    { state := "SUCCESS", info := some { pdf_url := some "/files/a.pdf" } }
    (Or.inl rfl)
  exact ⟨h.1, h.2.1, h.2.2 "/files/a.pdf" rfl (by decide)⟩

/-- C3 as stated fails on the code: neither the normalizer nor the
controller clamps, so a `PROCESSING` frame with `info.progress = 150`
drives the snapshot's progress to 150, outside 0–100. -/
theorem C3_counterexample :
    (runMessages cfg0 initState
      [some { state := "PROCESSING",
              info := some { progress := some 150 } }]).progress = 150 ∧
    ¬ (runMessages cfg0 initState
      [some { state := "PROCESSING",
              info := some { progress := some 150 } }]).progress ≤ 100 := by
  decide

/-- C3 amended: no clamping is performed anywhere; the snapshot's progress
stays in 0–100 for every message sequence from the initial state provided
every `info.progress` carried by a received message lies in 0–100. -/
theorem C3_progress_bounded (cfg : Config)
    (msgs : List (Option WebSocketMessage))
    (h : ∀ mm : WebSocketMessage, some mm ∈ msgs →
      ∀ p : Int, infoProgress mm = some p → 0 ≤ p ∧ p ≤ 100) :
    0 ≤ (runMessages cfg initState msgs).progress ∧
    (runMessages cfg initState msgs).progress ≤ 100 :=
  runMessages_progress_bound cfg msgs initState (by decide) h

/-- C3 witness: the single-message sequence `PROCESSING` with
`info.progress = 40`. -/
theorem C3_witness :
    0 ≤ (runMessages cfg0 initState
      [some { state := "PROCESSING",
              info := some { progress := some 40 } }]).progress ∧
    (runMessages cfg0 initState
      [some { state := "PROCESSING",
              info := some { progress := some 40 } }]).progress ≤ 100 := by
  apply C3_progress_bounded
  intro mm hmm p hp
  simp only [List.mem_singleton, Option.some.injEq] at hmm
  subst hmm
  simp only [infoProgress, Option.bind_some] at hp
  cases hp
  decide

/-- C4: on a completed message carrying a non-empty `info.pdf_url`, the
stored `pdfUrl` is the reference prefixed with the configured base URL
(a trailing '/' removed) when the reference begins with '/', and the
reference unchanged otherwise. -/
theorem C4_pdf_url_resolution (cfg : Config) (s : HookState)
    (m : WebSocketMessage) (u : String)
    (h1 : m.state = "SUCCESS" ∨ m.state = "COMPLETED")
    (h2 : infoPdfUrl m = some u) (h3 : u ≠ "") :
    (handleParsed cfg s m).pdfUrl =
      some (if startsWithSlash u then
              (if cfg.API_BASE_URL.data.getLast? = some '/' then
                String.mk cfg.API_BASE_URL.data.dropLast
               else cfg.API_BASE_URL) ++ u
            else u) := by
  rcases h1 with h1 | h1 <;>
    simp [handleParsed, h1, truthy, h2, h3, resolvePdfUrl, stripTrailingSlash]

/-- C4 witness: Scenario B — `SUCCESS` with `info.pdf_url = "/files/a.pdf"`
and base `https://api.example.com` gives
`https://api.example.com/files/a.pdf`. -/
theorem C4_witness :
    (handleParsed
      { API_BASE_URL := "https://api.example.com",
        WS_RECONNECT_ATTEMPTS := 5, WS_RECONNECT_DELAY := 3000 }
      initState
      { state := "SUCCESS",
        info := some { pdf_url := some "/files/a.pdf" } }).pdfUrl
      = some "https://api.example.com/files/a.pdf" := by
  have h := C4_pdf_url_resolution
    { API_BASE_URL := "https://api.example.com",
      WS_RECONNECT_ATTEMPTS := 5, WS_RECONNECT_DELAY := 3000 }
    initState
    { state := "SUCCESS", info := some { pdf_url := some "/files/a.pdf" } }
    "/files/a.pdf" (Or.inl rfl) rfl (by decide)
  rw [h]
  decide

/-- C5 as stated fails on the code: the rider "info.progress is copied to
the snapshot when present" does not hold on the completed discriminators —
`SUCCESS` with `info.progress = 40` yields progress 100, not 40. -/
theorem C5_counterexample :
    (handleParsed cfg0 initState
      { state := "SUCCESS", info := some { progress := some 40 } }).progress
      = 100 ∧
    ¬ (handleParsed cfg0 initState
      { state := "SUCCESS", info := some { progress := some 40 } }).progress
      = 40 := by
  decide

/-- C5 amended: the discriminator-to-status mapping is exactly PENDING →
pending; PROCESSING, IN_PROGRESS, PROGRESS → processing; SUCCESS,
COMPLETED → completed; FAILED, ERROR → failed, case-sensitively on exactly
these strings (any other discriminator leaves the snapshot unchanged);
`info.progress` is copied when present only on the pending and processing
discriminators — on SUCCESS/COMPLETED progress is set to 100 regardless,
and on FAILED/ERROR it is left unchanged. In particular PROCESSING with
`info.progress = 40` yields {status: processing, progress: 40}. -/
theorem C5_mapping (cfg : Config) (s : HookState) (m : WebSocketMessage) :
    (m.state = "PENDING" →
      (handleParsed cfg s m).status = Status.pending ∧
      (handleParsed cfg s m).progress = (infoProgress m).getD s.progress) ∧
    ((m.state = "PROCESSING" ∨ m.state = "IN_PROGRESS" ∨
        m.state = "PROGRESS") →
      (handleParsed cfg s m).status = Status.processing ∧
      (handleParsed cfg s m).progress = (infoProgress m).getD s.progress) ∧
    ((m.state = "SUCCESS" ∨ m.state = "COMPLETED") →
      (handleParsed cfg s m).status = Status.completed ∧
      (handleParsed cfg s m).progress = 100) ∧
    ((m.state = "FAILED" ∨ m.state = "ERROR") →
      (handleParsed cfg s m).status = Status.failed ∧
      (handleParsed cfg s m).progress = s.progress) ∧
    (m.state ∉ recognizedStates → handleParsed cfg s m = s) := by
  refine ⟨?_, ?_, ?_, ?_, fun h => handleParsed_unknown cfg s m h⟩
  · intro h
    cases hip : infoProgress m <;> simp [handleParsed, h, hip]
  · rintro (h | h | h) <;> cases hip : infoProgress m <;>
      simp [handleParsed, h, hip]
  · rintro (h | h) <;> cases htr : truthy (infoPdfUrl m) <;>
      simp [handleParsed, h, htr]
  · rintro (h | h) <;> simp [handleParsed, h]

/-- C5 witness: Scenario A — `PROCESSING` with `info.progress = 40`. -/
theorem C5_witness :
    (handleParsed cfg0 initState
      { state := "PROCESSING", info := some { progress := some 40 } }).status
      = Status.processing ∧
    (handleParsed cfg0 initState
      { state := "PROCESSING", info := some { progress := some 40 } }).progress
      = 40 := by
  have h := (C5_mapping cfg0 initState
    { state := "PROCESSING", info := some { progress := some 40 } }).2.1
    (Or.inl rfl)
  exact ⟨h.1, by rw [h.2]; rfl⟩

/-- C6: once `connectionAttempts` has reached `WS_RECONNECT_ATTEMPTS`, a
further `connect()` call sets the user-facing diagnostic error, leaves
status/progress/pdfUrl untouched and opens no socket; and a manual status
check whose fetch result is completed with a (non-empty) pdf_url still
hands that url to the consumer. -/
theorem C6_givenup_manual_check (cfg : Config) (s : HookState)
    (h : cfg.WS_RECONNECT_ATTEMPTS ≤ s.connectionAttempts)
    (u : String) (hu : u ≠ "") :
    (connectStep cfg s).1.errmsg = some exhaustedMsg ∧
    (connectStep cfg s).1.status = s.status ∧
    (connectStep cfg s).1.progress = s.progress ∧
    (connectStep cfg s).1.pdfUrl = s.pdfUrl ∧
    (connectStep cfg s).2 = false ∧
    handleManualCheck
      { status := Status.completed, progress := 100,
        result := some { pdf_url := u } } = some u := by
  simp [connectStep, h, handleManualCheck, hu]

/-- C6 witness: attempts exhausted at the default maximum of 5; the manual
check returns a completed status carrying a pdf_url. -/
theorem C6_witness :
    (connectStep cfg0 { initState with connectionAttempts := 5 }).1.errmsg
      = some exhaustedMsg ∧
    (connectStep cfg0 { initState with connectionAttempts := 5 }).1.status
      = ({ initState with connectionAttempts := 5 } : HookState).status ∧
    (connectStep cfg0 { initState with connectionAttempts := 5 }).1.progress
      = ({ initState with connectionAttempts := 5 } : HookState).progress ∧
    (connectStep cfg0 { initState with connectionAttempts := 5 }).1.pdfUrl
      = ({ initState with connectionAttempts := 5 } : HookState).pdfUrl ∧
    (connectStep cfg0 { initState with connectionAttempts := 5 }).2 = false ∧
    handleManualCheck
      { status := Status.completed, progress := 100,
        result := some { pdf_url := "https://api.example.com/files/a.pdf" } }
      = some "https://api.example.com/files/a.pdf" :=
  C6_givenup_manual_check cfg0 { initState with connectionAttempts := 5 }
    (by decide) "https://api.example.com/files/a.pdf" (by decide)

/-- C7: `connectionAttempts` never exceeds `WS_RECONNECT_ATTEMPTS` along
any event sequence (it is a Nat, hence also ≥ 0); `ws.onopen` resets it to
0; and a single step changes it exactly as the claim says: +1 on an
abnormal close (code ≠ 1000, not clean) that triggers a retry
(attempts < max), reset on open, unchanged on every other event. -/
theorem C7_attempt_count (cfg : Config) (s : HookState) (e : WSEvent)
    (evs : List WSEvent)
    (h : s.connectionAttempts ≤ cfg.WS_RECONNECT_ATTEMPTS) :
    (runEvents cfg s evs).connectionAttempts ≤ cfg.WS_RECONNECT_ATTEMPTS ∧
    (step cfg s WSEvent.opened).connectionAttempts = 0 ∧
    (step cfg s e).connectionAttempts =
      (match e with
       | WSEvent.opened => 0
       | WSEvent.closed code wasClean =>
         if s.connectionAttempts < cfg.WS_RECONNECT_ATTEMPTS ∧ code ≠ 1000 ∧
             wasClean = false
         then s.connectionAttempts + 1
         else s.connectionAttempts
       | _ => s.connectionAttempts) := by
  refine ⟨runEvents_attempts_le cfg evs s h, rfl, ?_⟩
  cases e with
  | connectAttempt =>
    simp only [step, connectStep]
    split <;> rfl
  | opened => rfl
  | message raw => exact handleMessage_connectionAttempts cfg s raw
  | closed code wasClean =>
    simp only [step, closeStep]
    split <;> rfl
  | errored => rfl

/-- C7 witness: from the initial state, an open followed by an abnormal
close; the abnormal-close step increments the counter to 1. -/
theorem C7_witness :
    (runEvents cfg0 initState
      [WSEvent.opened, WSEvent.closed 1006 false]).connectionAttempts
      ≤ cfg0.WS_RECONNECT_ATTEMPTS ∧
    (step cfg0 initState WSEvent.opened).connectionAttempts = 0 ∧
    (step cfg0 initState (WSEvent.closed 1006 false)).connectionAttempts
      = 1 := by
  have h := C7_attempt_count cfg0 initState (WSEvent.closed 1006 false)
    [WSEvent.opened, WSEvent.closed 1006 false] (by decide)
  refine ⟨h.1, h.2.1, ?_⟩
  rw [h.2.2]
  decide

/-- C8: a frame on which parsing fails, and a parsed frame whose
discriminator is none of the eight recognized values, both leave every
snapshot field unchanged; `handleMessage` is a total function, so no
exception escapes the handler. -/
theorem C8_malformed_ignored (cfg : Config) (s : HookState)
    (m : WebSocketMessage) (h : m.state ∉ recognizedStates) :
    handleMessage cfg s none = s ∧ handleMessage cfg s (some m) = s :=
  ⟨rfl, handleParsed_unknown cfg s m h⟩

/-- C8 witness: Scenario D — the unrecognized discriminator
`"WEIRD_STATE"` (and an unparseable frame) leave the snapshot unchanged. -/
theorem C8_witness :
    handleMessage cfg0 initState none = initState ∧
    handleMessage cfg0 initState (some { state := "WEIRD_STATE" })
      = initState :=
  C8_malformed_ignored cfg0 initState { state := "WEIRD_STATE" } (by decide)

/-- C9: a `PENDING` message whose info carries no progress value only sets
the status to `pending`; progress, pdfUrl and the error are all retained
(the result is exactly the previous snapshot with the status replaced). -/
theorem C9_pending_retains_progress (cfg : Config) (s : HookState)
    (m : WebSocketMessage) (h1 : m.state = "PENDING")
    (h2 : infoProgress m = none) :
    handleParsed cfg s m = { s with status := Status.pending } := by
  simp [handleParsed, h1, h2]

/-- C9 witness: a bare `PENDING` frame hitting a snapshot at progress 55
keeps the 55. -/
theorem C9_witness :
    handleParsed cfg0 { initState with progress := 55 } { state := "PENDING" }
      = { initState with progress := 55, status := Status.pending } :=
  C9_pending_retains_progress cfg0 { initState with progress := 55 }
    { state := "PENDING" } rfl rfl

/-- C10: `generateBook` lowercases the language ("EN" → "en", "BG" →
"bg"), renames `num_chapters` to `chapters`, wraps `hero_name` into the
single-element `characters` array, and passes `title`, `style` and
`include_images` through unchanged. -/
theorem C10_backend_payload (p : BookRequest) :
    (backendPayload p).title = p.title ∧
    (backendPayload p).language = toLowerAscii p.language ∧
    (backendPayload p).style = p.style ∧
    (backendPayload p).chapters = p.num_chapters ∧
    (backendPayload p).include_images = p.include_images ∧
    (backendPayload p).characters = [p.hero_name] ∧
    toLowerAscii "EN" = "en" ∧ toLowerAscii "BG" = "bg" :=
  ⟨rfl, rfl, rfl, rfl, rfl, rfl, by decide, by decide⟩
